import Mathlib

/-!
Verification of the MarcDuino dome-panel firmware core (realtime.c, servo.c,
sequencer.c).  The definitions below are a shallow embedding of the C source,
compiled for the ATmega168 target (16 MHz clock, `_USE_32KHZ_` not defined),
where `int` is 16 bits wide: `uint8_t` and `int16_t` values both promote to a
16-bit `int`, `uint16_t` operands force unsigned 16-bit comparison, and
storing an `int16_t` into a `uint16_t` reduces it modulo 2^16.
Machine integers are modelled as `Nat`/`Int` with the conversions made
explicit (`toU16`, `wrap16`); loops whose iterations touch pairwise disjoint
array cells are embedded by giving the resulting arrays pointwise.
-/

set_option autoImplicit false

namespace MarcDuino

/-! ### Constants from servo.h, sequencer.h and realtime.h -/

/-- Number of servo channels (servo.h: `#define SERVO_NUM 11`). -/
def SERVO_NUM : Nat := 11

/-- Minimum pulse width in microseconds (servo.h). -/
def SERVO_PULSE_MIN : Int := 500

/-- Maximum pulse width in microseconds (servo.h). -/
def SERVO_PULSE_MAX : Int := 2500

/-- Sentinel meaning "no pulse on this output" (servo.h: `-1`). -/
def SERVO_NO_PULSE : Int := -1

/-- Number of consecutive missed RC readings before time-out (servo.h). -/
def SERVO_RC_TIMEOUT_MAX : Nat := 10

/-- Capacity of the timer registry (realtime.h). -/
def RT_MAX_TIMERS : Nat := 10

/-- Capacity of the per-tick callback registry (realtime.h). -/
def RT_MAX_FUNCTIONS : Nat := 3

/-- Number of non-servo entries in a sequence row (sequencer.h). -/
def SEQUENCE_PARAMETERS : Nat := 4

/-- Width of one sequence row (sequencer.h: `SERVO_NUM + SEQUENCE_PARAMETERS`). -/
def SEQUENCE_ROW : Nat := SERVO_NUM + SEQUENCE_PARAMETERS

/-- Column of the per-row speed override (sequencer.h: `SEQUENCE_ROW - 3`). -/
def SPEED_PARAM : Nat := SEQUENCE_ROW - 3

/-- Column of the first servo acted on in a row (sequencer.h). -/
def START_SERVO_PARAM : Nat := SEQUENCE_ROW - 2

/-- Column of the last servo acted on in a row (sequencer.h). -/
def END_SERVO_PARAM : Nat := SEQUENCE_ROW - 1

/-- Image of the `int16_t` value `SERVO_NO_PULSE = -1` once stored into the
`uint16_t servo_value[]` array: `(uint16_t)(-1) = 65535`. -/
def NO_PULSE_U16 : Nat := 65535

/-! ### Machine-integer conversions -/

/-- Conversion of a 16-bit signed value to `uint16_t` (reduction mod 2^16). -/
def toU16 (x : Int) : Nat := (x % 65536).toNat

/-- Wrap-around of 16-bit signed (`int16_t`) arithmetic. -/
def wrap16 (x : Int) : Int := (x + 32768) % 65536 - 32768

theorem toU16_of_lt {x : Int} (h0 : 0 ≤ x) (h1 : x < 65536) : toU16 x = x.toNat := by
  unfold toU16
  rw [Int.emod_eq_of_lt h0 h1]

theorem wrap16_of_bounds {x : Int} (h0 : -32768 ≤ x) (h1 : x ≤ 32767) : wrap16 x = x := by
  unfold wrap16
  omega

/-! ### Pulse Engine (servo.c)

The pulse array `uint16_t servo_value[12]` is modelled as a function
`Nat → Nat` from cell index (0-based) to its unsigned 16-bit content. -/

/-- Value that `servo_set` (servo.c lines 179-197) stores into
`servo_value[servo-1]` for an in-range channel: negative requests
(`time <= SERVO_NO_PULSE`) store the no-pulse marker, otherwise `time` is
clipped to `[SERVO_PULSE_MIN, SERVO_PULSE_MAX]` by the two successive `if`s
and doubled (counter ticks are 0.5 us). -/
def servo_store (time : Int) : Nat :=
  if time ≤ SERVO_NO_PULSE then NO_PULSE_U16
  else
    let t1 := if time > SERVO_PULSE_MAX then SERVO_PULSE_MAX else time
    let t2 := if t1 < SERVO_PULSE_MIN then SERVO_PULSE_MIN else t1
    toU16 (2 * t2)

/-- Embedding of `servo_set` (servo.c lines 179-197): out-of-range channels
are a no-op, otherwise cell `servo - 1` receives `servo_store time`. -/
def servo_set (sv : Nat → Nat) (servo : Nat) (time : Int) : Nat → Nat :=
  if servo = 0 ∨ servo > SERVO_NUM then sv
  else fun j => if j = servo - 1 then servo_store time else sv j

/-- Embedding of `servo_read` (servo.c lines 208-222): out-of-range channels
return 0; a stored no-pulse marker (the AVR comparison
`servo_value[servo-1]==SERVO_NO_PULSE` compares against `(uint16_t)(-1)`)
returns the sentinel; otherwise the stored value halved. -/
def servo_read (sv : Nat → Nat) (servo : Nat) : Int :=
  if servo = 0 ∨ servo > SERVO_NUM then 0
  else if sv (servo - 1) = NO_PULSE_U16 then SERVO_NO_PULSE
  else ((sv (servo - 1)) / 2 : Nat)

/-- State of `servo_value[]` after `servo_init` (servo.c lines 66-133): every
cell is set to the no-pulse marker. -/
def servo_init_value : Nat → Nat := fun _ => NO_PULSE_U16

/-- The pulse array after `servo_init` followed by an arbitrary list of
`servo_set` calls. -/
def servo_runs (cmds : List (Nat × Int)) : Nat → Nat :=
  cmds.foldl (fun sv c => servo_set sv c.1 c.2) servo_init_value

/-- Invariant of the pulse array: every cell is either the no-pulse marker or
a doubled legal width. -/
def ServoInv (sv : Nat → Nat) : Prop :=
  ∀ j, sv j = NO_PULSE_U16 ∨ (1000 ≤ sv j ∧ sv j ≤ 5000)

theorem servo_store_inv (time : Int) :
    servo_store time = NO_PULSE_U16 ∨ (1000 ≤ servo_store time ∧ servo_store time ≤ 5000) := by
  simp only [servo_store, toU16, SERVO_NO_PULSE, SERVO_PULSE_MIN, SERVO_PULSE_MAX, NO_PULSE_U16]
  split_ifs <;> omega

theorem servo_set_inv (sv : Nat → Nat) (servo : Nat) (time : Int) (h : ServoInv sv) :
    ServoInv (servo_set sv servo time) := by
  unfold servo_set
  split_ifs with hg
  · exact h
  · intro j
    by_cases hj : j = servo - 1
    · simp only [hj, if_pos rfl]
      exact servo_store_inv time
    · simp only [if_neg hj]
      exact h j

theorem servo_runs_inv (cmds : List (Nat × Int)) : ServoInv (servo_runs cmds) := by
  unfold servo_runs
  have base : ServoInv servo_init_value := by
    intro j
    left
    rfl
  generalize servo_init_value = sv at base ⊢
  induction cmds generalizing sv with
  | nil => exact base
  | cons c rest ih =>
      exact ih (servo_set sv c.1 c.2) (servo_set_inv sv c.1 c.2 base)

/-- Reading channel `c` right after setting it, for an in-range channel. -/
theorem servo_read_set_self (sv : Nat → Nat) (c : Nat) (w : Int)
    (h1 : 1 ≤ c) (h2 : c ≤ SERVO_NUM) :
    servo_read (servo_set sv c w) c =
      (if servo_store w = NO_PULSE_U16 then SERVO_NO_PULSE
        else ((servo_store w / 2 : Nat) : Int)) := by
  have hg : ¬(c = 0 ∨ c > SERVO_NUM) := by
    unfold SERVO_NUM at h2 ⊢
    omega
  unfold servo_read servo_set
  rw [if_neg hg, if_neg hg]
  simp

/-! ### Claim C3 -/

/-- Claim C3, counterexample: with `w = -2` (which is below 500 and distinct
from the `SERVO_NO_PULSE` sentinel), `servo_set` stores no-pulse — servo.c
line 185 treats every `time <= SERVO_NO_PULSE` as a no-pulse request — so the
subsequent `servo_read` returns the sentinel, not 500 as the claim states. -/
theorem c3_counterexample :
    servo_read (servo_set servo_init_value 1 (-2)) 1 = SERVO_NO_PULSE ∧
    SERVO_NO_PULSE ≠ (500 : Int) ∧
    (-2 : Int) < 500 ∧ (-2 : Int) ≠ SERVO_NO_PULSE := by
  refine ⟨by decide, by decide, by decide, by decide⟩

/-- Claim C3 (amended): for every in-range channel, `servo_set` then
`servo_read` returns `w` for `w` in `[500, 2500]`, clamps to 2500 above the
range, clamps to 500 for `0 ≤ w < 500`, and returns the `SERVO_NO_PULSE`
sentinel for every negative `w` (not only for `w = SERVO_NO_PULSE`). -/
theorem c3_set_then_read (sv : Nat → Nat) (c : Nat) (w : Int)
    (h1 : 1 ≤ c) (h2 : c ≤ SERVO_NUM) :
    (500 ≤ w ∧ w ≤ 2500 → servo_read (servo_set sv c w) c = w) ∧
    (2500 < w → servo_read (servo_set sv c w) c = 2500) ∧
    (0 ≤ w ∧ w < 500 → servo_read (servo_set sv c w) c = 500) ∧
    (w < 0 → servo_read (servo_set sv c w) c = SERVO_NO_PULSE) := by
  rw [servo_read_set_self sv c w h1 h2]
  simp only [servo_store, toU16, SERVO_NO_PULSE, SERVO_PULSE_MIN, SERVO_PULSE_MAX, NO_PULSE_U16]
  refine ⟨?_, ?_, ?_, ?_⟩ <;> intro hw <;> split_ifs <;> omega

/-- Claim C3 witness: instance of the amended round-trip at channel 2,
width 600. -/
theorem c3_witness :
    (1 ≤ 2 ∧ 2 ≤ SERVO_NUM) ∧
    servo_read (servo_set servo_init_value 2 600) 2 = 600 :=
  ⟨by decide,
    (c3_set_then_read servo_init_value 2 600 (by decide) (by decide)).1 ⟨by decide, by decide⟩⟩

/-! ### Claim C10 -/

/-- Claim C10: after `servo_init` and any sequence of `servo_set` calls,
`servo_read` returns 0 exactly on out-of-range channels, and on in-range
channels returns either the `SERVO_NO_PULSE` sentinel or a width in
`[500, 2500]` — never a positive value below 500 or above 2500. -/
theorem c10_read_range (cmds : List (Nat × Int)) (c : Nat) :
    (c = 0 ∨ c > SERVO_NUM → servo_read (servo_runs cmds) c = 0) ∧
    (1 ≤ c → c ≤ SERVO_NUM →
      servo_read (servo_runs cmds) c = SERVO_NO_PULSE ∨
      (500 ≤ servo_read (servo_runs cmds) c ∧ servo_read (servo_runs cmds) c ≤ 2500)) := by
  constructor
  · intro hc
    unfold servo_read
    rw [if_pos hc]
  · intro h1 h2
    have hg : ¬(c = 0 ∨ c > SERVO_NUM) := by
      unfold SERVO_NUM at h2 ⊢
      omega
    unfold servo_read
    rw [if_neg hg]
    rcases servo_runs_inv cmds (c - 1) with h | h
    · rw [if_pos h]
      left
      rfl
    · rw [if_neg (by unfold NO_PULSE_U16; omega)]
      right
      constructor <;> push_cast <;> omega

/-- Claim C10 witness: instance at the out-of-range channel 12 and the
in-range channel 1, after one `servo_set` call. -/
theorem c10_witness :
    servo_read (servo_runs [(1, 600)]) 12 = 0 ∧
    (servo_read (servo_runs [(1, 600)]) 1 = SERVO_NO_PULSE ∨
      (500 ≤ servo_read (servo_runs [(1, 600)]) 1 ∧
        servo_read (servo_runs [(1, 600)]) 1 ≤ 2500)) :=
  ⟨(c10_read_range [(1, 600)] 12).1 (by decide),
    (c10_read_range [(1, 600)] 1).2 (by decide) (by decide)⟩

/-! ### Sequencer (sequencer.c)

A motion table in program memory is modelled as `tbl step col`, the
`int16_t` entry `sequence_array[step][col]` (column 0 = step duration,
columns 1..SERVO_NUM = per-channel targets, then the speed override and the
first/last servo parameters).  The sequencer globals together with the pulse
array they command form one state record. -/

structure SeqState where
  seq_current : Nat → Int
  seq_goal : Nat → Int
  servo_speed : Nat → Int
  sequence_step : Nat
  sequence_started : Bool
  sequence_length : Nat
  seq_timeout : Nat
  sequence_array : Option (Nat → Nat → Int)
  servo_value : Nat → Nat
  seq_completion_callback : Bool

/-- Skip test of `seq_setservopos` (sequencer.c lines 158-165): the source
condition is `(i < array[step][START_SERVO_PARAM]) && (i > array[step][END_SERVO_PARAM])`,
where the `uint8_t` channel `i` is compared against the `uint16_t` result of
`pgm_read_word`, forcing unsigned 16-bit comparison on the AVR. -/
abbrev seq_skip (tbl : Nat → Nat → Int) (step i : Nat) : Prop :=
  i < toU16 (tbl step START_SERVO_PARAM) ∧ i > toU16 (tbl step END_SERVO_PARAM)

/-- Embedding of `seq_setservopos` (sequencer.c lines 145-174).  The loop over
`i = 1..SERVO_NUM` writes, per iteration, only `seq_goal[i-1]` and — when the
target is `SERVO_NO_PULSE`, through the immediate `servo_set(i, SERVO_NO_PULSE)`
call — `servo_value[i-1]`; the iterations touch pairwise disjoint cells, so
the resulting arrays are given pointwise. -/
def seq_setservopos (tbl : Nat → Nat → Int) (step : Nat) (st : SeqState) : SeqState :=
  { st with
    seq_goal := fun j =>
      if j < SERVO_NUM ∧ ¬ seq_skip tbl step (j + 1) then tbl step (j + 1)
      else st.seq_goal j,
    servo_value := fun j =>
      if j < SERVO_NUM ∧ ¬ seq_skip tbl step (j + 1) ∧ tbl step (j + 1) = SERVO_NO_PULSE
      then servo_store SERVO_NO_PULSE
      else st.servo_value j }

/-- Per-channel position update of `seq_dosequence` (sequencer.c lines
210-235), on `int16_t` arithmetic: if the goal is reached do nothing; with no
speed limit or an invalid current position snap to the goal; otherwise move
by `maxspeed`, where the source's decreasing branch tests `delta < maxspeed`
(not `delta < -maxspeed`). -/
def seq_move_channel (maxspeed cur goal : Int) : Int :=
  let delta := wrap16 (goal - cur)
  if delta = 0 then cur
  else if maxspeed = 0 ∨ cur = SERVO_NO_PULSE then goal
  else if delta > 0 then
    (if delta > maxspeed then wrap16 (cur + maxspeed) else goal)
  else
    (if delta < maxspeed then wrap16 (cur - maxspeed) else goal)

/-- Effective speed for channel index `j` (sequencer.c lines 200-208): a row
speed override different from `-1` takes priority over the per-channel table. -/
def seq_effspeed (tbl : Nat → Nat → Int) (step : Nat) (speed : Nat → Int) (j : Nat) : Int :=
  if tbl step SPEED_PARAM ≠ -1 then tbl step SPEED_PARAM else speed j

/-- Movement phase of `seq_dosequence` (sequencer.c lines 197-236): every
channel with a nonzero goal distance gets its tracked current position
updated by `seq_move_channel` and the result commanded through
`servo_set(i+1, seq_current[i])`; each iteration touches only cell `i` of
`seq_current` and `servo_value`, so the arrays are given pointwise. -/
def seq_domove (tbl : Nat → Nat → Int) (st : SeqState) : SeqState :=
  { st with
    seq_current := fun j =>
      if j < SERVO_NUM then
        seq_move_channel (seq_effspeed tbl st.sequence_step st.servo_speed j)
          (st.seq_current j) (st.seq_goal j)
      else st.seq_current j,
    servo_value := fun j =>
      if j < SERVO_NUM ∧ wrap16 (st.seq_goal j - st.seq_current j) ≠ 0 then
        servo_store (seq_move_channel (seq_effspeed tbl st.sequence_step st.servo_speed j)
          (st.seq_current j) (st.seq_goal j))
      else st.servo_value j }

/-- Embedding of the per-tick routine `seq_dosequence` (sequencer.c lines
184-271).  Returns the new state and whether the completion callback was
invoked this tick.  Notes tied to the source: `if(!seq_timeout==0) return;`
parses as `(!seq_timeout)==0`, i.e. return while the step timer is nonzero;
`sequence_step<sequence_length-1` promotes both `uint8_t` operands to the
16-bit signed `int`; `pgm_read_word` of the duration yields `uint16_t`,
hence the `toU16` in the zero test and the timer reload. -/
def seq_dosequence (st : SeqState) : SeqState × Bool :=
  if st.sequence_started = false then (st, false)
  else
    match st.sequence_array with
    | none => (st, false)
    | some tbl =>
      let st1 := seq_domove tbl st
      if st1.seq_timeout ≠ 0 then (st1, false)
      else if (st1.sequence_step : Int) < (st1.sequence_length : Int) - 1 then
        ({ seq_setservopos tbl st1.sequence_step st1 with
            seq_timeout := toU16 (tbl st1.sequence_step 0),
            sequence_step := st1.sequence_step + 1 }, false)
      else if toU16 (tbl (st1.sequence_length - 1) 0) = 0 then
        ({ seq_setservopos tbl (st1.sequence_length - 1) st1 with
            sequence_started := false, sequence_step := 0 }, st.seq_completion_callback)
      else
        ({ seq_setservopos tbl (st1.sequence_length - 1) st1 with
            seq_timeout := toU16 (tbl (st1.sequence_length - 1) 0),
            sequence_step := 0 }, false)

/-- Embedding of `seq_loadsequence` (sequencer.c lines 75-100): stop the
running sequence, restart at step 0, bind the new table, and initialise every
channel's tracked current and goal position from `servo_read` — the Pulse
Engine's last commanded value — one channel per loop iteration. -/
def seq_loadsequence (st : SeqState) (tbl : Nat → Nat → Int) (len : Nat) : SeqState :=
  { st with
    sequence_started := false,
    sequence_step := 0,
    sequence_array := some tbl,
    sequence_length := len,
    seq_current := fun j =>
      if j < SERVO_NUM then servo_read st.servo_value (j + 1) else st.seq_current j,
    seq_goal := fun j =>
      if j < SERVO_NUM then servo_read st.servo_value (j + 1) else st.seq_goal j }

theorem seq_domove_step (tbl : Nat → Nat → Int) (st : SeqState) :
    (seq_domove tbl st).sequence_step = st.sequence_step := rfl

theorem seq_domove_started (tbl : Nat → Nat → Int) (st : SeqState) :
    (seq_domove tbl st).sequence_started = st.sequence_started := rfl

theorem seq_domove_length (tbl : Nat → Nat → Int) (st : SeqState) :
    (seq_domove tbl st).sequence_length = st.sequence_length := rfl

theorem seq_domove_timeout (tbl : Nat → Nat → Int) (st : SeqState) :
    (seq_domove tbl st).seq_timeout = st.seq_timeout := rfl

theorem seq_setservopos_started (tbl : Nat → Nat → Int) (step : Nat) (st : SeqState) :
    (seq_setservopos tbl step st).sequence_started = st.sequence_started := rfl

/-! ### Branch lemmas for the per-tick routine -/

theorem seq_dosequence_not_started (st : SeqState) (hs : st.sequence_started = false) :
    seq_dosequence st = (st, false) := by
  unfold seq_dosequence
  rw [if_pos hs]

theorem seq_dosequence_waiting (st : SeqState) (tbl : Nat → Nat → Int)
    (hs : st.sequence_started = true) (ha : st.sequence_array = some tbl)
    (ht : st.seq_timeout ≠ 0) :
    seq_dosequence st = (seq_domove tbl st, false) := by
  unfold seq_dosequence
  rw [ha]
  simp [hs, seq_domove_timeout, ht]

theorem seq_dosequence_normal (st : SeqState) (tbl : Nat → Nat → Int)
    (hs : st.sequence_started = true) (ha : st.sequence_array = some tbl)
    (ht : st.seq_timeout = 0)
    (hstep : (st.sequence_step : Int) < (st.sequence_length : Int) - 1) :
    seq_dosequence st =
      ({ seq_setservopos tbl st.sequence_step (seq_domove tbl st) with
          seq_timeout := toU16 (tbl st.sequence_step 0),
          sequence_step := st.sequence_step + 1 }, false) := by
  unfold seq_dosequence
  rw [ha]
  simp [hs, ht, hstep, seq_domove_timeout, seq_domove_step, seq_domove_length]

theorem seq_dosequence_final_zero (st : SeqState) (tbl : Nat → Nat → Int)
    (hs : st.sequence_started = true) (ha : st.sequence_array = some tbl)
    (ht : st.seq_timeout = 0)
    (hstep : ¬((st.sequence_step : Int) < (st.sequence_length : Int) - 1))
    (hd : toU16 (tbl (st.sequence_length - 1) 0) = 0) :
    seq_dosequence st =
      ({ seq_setservopos tbl (st.sequence_length - 1) (seq_domove tbl st) with
          sequence_started := false, sequence_step := 0 }, st.seq_completion_callback) := by
  unfold seq_dosequence
  rw [ha]
  simp [hs, ht, hstep, hd, seq_domove_timeout, seq_domove_step, seq_domove_length]

theorem seq_dosequence_final_loop (st : SeqState) (tbl : Nat → Nat → Int)
    (hs : st.sequence_started = true) (ha : st.sequence_array = some tbl)
    (ht : st.seq_timeout = 0)
    (hstep : ¬((st.sequence_step : Int) < (st.sequence_length : Int) - 1))
    (hd : toU16 (tbl (st.sequence_length - 1) 0) ≠ 0) :
    seq_dosequence st =
      ({ seq_setservopos tbl (st.sequence_length - 1) (seq_domove tbl st) with
          seq_timeout := toU16 (tbl (st.sequence_length - 1) 0),
          sequence_step := 0 }, false) := by
  unfold seq_dosequence
  rw [ha]
  simp [hs, ht, hstep, hd, seq_domove_timeout, seq_domove_step, seq_domove_length]

/-! ### Claim C1 -/

/-- One-frame table whose declared channel range is `[2, 3]`, with targets
1500 everywhere and no speed override. -/
def tblC1 : Nat → Nat → Int := fun _ col =>
  if col = 0 then 50
  else if col = SPEED_PARAM then -1
  else if col = START_SERVO_PARAM then 2
  else if col = END_SERVO_PARAM then 3
  else 1500

/-- Sequencer state used to exercise `seq_setservopos` on `tblC1`. -/
def stC1 : SeqState :=
  { seq_current := fun _ => 1000
    seq_goal := fun _ => 1000
    servo_speed := fun _ => 0
    sequence_step := 0
    sequence_started := true
    sequence_length := 2
    seq_timeout := 0
    sequence_array := some tblC1
    servo_value := fun _ => 2000
    seq_completion_callback := false }

/-- Claim C1 fails on the code: committing a frame whose declared range is
`[2, 3]` still updates the goal of channel 1, which lies outside the range.
The source's skip test `(i < first) && (i > last)` (sequencer.c lines
158-161) is unsatisfiable whenever `first <= last`, so no channel is ever
skipped; the comments there and the `first = 0, so this is skipped` remarks
in panel_sequences.h show `||` was intended. -/
theorem c1_out_of_range_channel_updated :
    toU16 (tblC1 0 START_SERVO_PARAM) = 2 ∧
    toU16 (tblC1 0 END_SERVO_PARAM) = 3 ∧
    stC1.seq_goal 0 = 1000 ∧
    (seq_setservopos tblC1 0 stC1).seq_goal 0 = 1500 := by
  refine ⟨by decide, by decide, by decide, by decide⟩

/-! ### Claim C2 -/

/-- Claim C2 fails on the code: a channel at current position 1000 with goal
997 and rate limit 5 is moved to 995, two microseconds past its goal.  The
decreasing branch of `seq_dosequence` (sequencer.c line 230) tests
`delta < maxspeed`, which holds for every negative `delta`, instead of
`delta < -maxspeed`, so the position is never snapped to a goal less than
`maxspeed` below it. -/
theorem c2_downward_overshoot :
    seq_move_channel 5 1000 997 = 995 ∧
    (995 : Int) < 997 ∧ (997 : Int) < 1000 ∧
    (0 : Int) < 5 ∧ (1000 : Int) ≠ SERVO_NO_PULSE := by
  refine ⟨by decide, by decide, by decide, by decide, by decide⟩

/-! ### Claim C5 -/

/-- Claim C5: loading a motion table initialises every channel's tracked
current and goal position to the Pulse Engine's last commanded value
(whatever `servo_read` returns, independent of the new table's first-frame
targets), clears the run flag and resets the frame index to 0. -/
theorem c5_loadsequence (st : SeqState) (tbl : Nat → Nat → Int) (len : Nat) (c : Nat)
    (h1 : 1 ≤ c) (h2 : c ≤ SERVO_NUM) :
    (seq_loadsequence st tbl len).seq_current (c - 1) = servo_read st.servo_value c ∧
    (seq_loadsequence st tbl len).seq_goal (c - 1) = servo_read st.servo_value c ∧
    (seq_loadsequence st tbl len).sequence_started = false ∧
    (seq_loadsequence st tbl len).sequence_step = 0 := by
  have hc : c - 1 < SERVO_NUM := by
    unfold SERVO_NUM at h2 ⊢
    omega
  have hc1 : c - 1 + 1 = c := by omega
  unfold seq_loadsequence
  simp [hc, hc1]

/-- Two-frame table whose first-frame target for every channel is 1000. -/
def tblC5 : Nat → Nat → Int := fun _ col =>
  if col = 0 then 50
  else if col = SPEED_PARAM then -1
  else if col = START_SERVO_PARAM then 1
  else if col = END_SERVO_PARAM then 11
  else 1000

/-- State in which channel 3's last commanded pulse value is 2200. -/
def stC5 : SeqState :=
  { seq_current := fun _ => 0
    seq_goal := fun _ => 0
    servo_speed := fun _ => 0
    sequence_step := 4
    sequence_started := true
    sequence_length := 3
    seq_timeout := 7
    sequence_array := none
    servo_value := servo_set servo_init_value 3 2200
    seq_completion_callback := false }

/-- Claim C5 witness: channel 3 was last commanded 2200, distinct from the
new table's first-frame target 1000; loading tracks 2200, not 1000. -/
theorem c5_witness :
    (1 ≤ 3 ∧ 3 ≤ SERVO_NUM) ∧
    ((seq_loadsequence stC5 tblC5 2).seq_current (3 - 1) = servo_read stC5.servo_value 3 ∧
      (seq_loadsequence stC5 tblC5 2).seq_goal (3 - 1) = servo_read stC5.servo_value 3 ∧
      (seq_loadsequence stC5 tblC5 2).sequence_started = false ∧
      (seq_loadsequence stC5 tblC5 2).sequence_step = 0) ∧
    servo_read stC5.servo_value 3 = 2200 ∧
    tblC5 0 3 = 1000 ∧ (2200 : Int) ≠ 1000 :=
  ⟨by decide, c5_loadsequence stC5 tblC5 2 3 (by decide) (by decide), by decide, by decide,
    by decide⟩

/-! ### Claim C4 -/

/-- Claim C4: when the per-tick step reaches the final frame with the step
timer at zero and that frame's duration is zero, it commits the frame's
targets once more, clears the run flag, resets the frame index to 0 and
fires the registered completion callback; the resulting state is inert, so
neither the halt nor the callback can repeat. -/
theorem c4_final_zero_frame_halts (st : SeqState) (tbl : Nat → Nat → Int)
    (hs : st.sequence_started = true) (ha : st.sequence_array = some tbl)
    (ht : st.seq_timeout = 0)
    (hstep : ¬((st.sequence_step : Int) < (st.sequence_length : Int) - 1))
    (hd : toU16 (tbl (st.sequence_length - 1) 0) = 0)
    (hc : st.seq_completion_callback = true) :
    seq_dosequence st =
      ({ seq_setservopos tbl (st.sequence_length - 1) (seq_domove tbl st) with
          sequence_started := false, sequence_step := 0 }, true) ∧
    seq_dosequence (seq_dosequence st).1 = ((seq_dosequence st).1, false) := by
  have h1 := seq_dosequence_final_zero st tbl hs ha ht hstep hd
  rw [hc] at h1
  refine ⟨h1, ?_⟩
  rw [h1]
  exact seq_dosequence_not_started _ rfl

/-- One-frame halting table: duration 0, every target `SERVO_NO_PULSE`, no
speed override, declared range `[1, 11]`. -/
def tblC4 : Nat → Nat → Int := fun _ col =>
  if col = 0 then 0
  else if col = SPEED_PARAM then -1
  else if col = START_SERVO_PARAM then 1
  else if col = END_SERVO_PARAM then 11
  else -1

/-- Running state sitting on the final frame of `tblC4` with expired timer
and a registered completion callback. -/
def stC4 : SeqState :=
  { seq_current := fun _ => 1500
    seq_goal := fun _ => 1500
    servo_speed := fun _ => 0
    sequence_step := 0
    sequence_started := true
    sequence_length := 1
    seq_timeout := 0
    sequence_array := some tblC4
    servo_value := fun _ => 3000
    seq_completion_callback := true }

/-- Claim C4 witness: the halt on the concrete no-pulse table `tblC4`. -/
theorem c4_witness :
    (stC4.sequence_started = true ∧ stC4.sequence_array = some tblC4 ∧
      stC4.seq_timeout = 0 ∧
      ¬((stC4.sequence_step : Int) < (stC4.sequence_length : Int) - 1) ∧
      toU16 (tblC4 (stC4.sequence_length - 1) 0) = 0 ∧
      stC4.seq_completion_callback = true) ∧
    (seq_dosequence stC4 =
        ({ seq_setservopos tblC4 (stC4.sequence_length - 1) (seq_domove tblC4 stC4) with
            sequence_started := false, sequence_step := 0 }, true) ∧
      seq_dosequence (seq_dosequence stC4).1 = ((seq_dosequence stC4).1, false)) :=
  ⟨⟨rfl, rfl, rfl, by decide, by decide, rfl⟩,
    c4_final_zero_frame_halts stC4 tblC4 rfl rfl rfl (by decide) (by decide) rfl⟩

/-! ### Claim C8 -/

/-- Claim C8: with a bound table whose final frame has nonzero duration, the
per-tick routine never fires the completion callback — in any state — and on
the final frame with expired timer it commits the targets, reloads the step
timer with the final frame's duration, wraps the index to 0 and leaves the
run flag set. -/
theorem c8_looping_never_fires (st : SeqState) (tbl : Nat → Nat → Int)
    (ha : st.sequence_array = some tbl)
    (hd : toU16 (tbl (st.sequence_length - 1) 0) ≠ 0) :
    (seq_dosequence st).2 = false ∧
    (st.sequence_started = true → st.seq_timeout = 0 →
      ¬((st.sequence_step : Int) < (st.sequence_length : Int) - 1) →
      seq_dosequence st =
        ({ seq_setservopos tbl (st.sequence_length - 1) (seq_domove tbl st) with
            seq_timeout := toU16 (tbl (st.sequence_length - 1) 0),
            sequence_step := 0 }, false) ∧
      (seq_dosequence st).1.sequence_started = true) := by
  constructor
  · by_cases hs : st.sequence_started = false
    · rw [seq_dosequence_not_started st hs]
    · have hs' : st.sequence_started = true := by
        cases hb : st.sequence_started <;> simp_all
      by_cases ht : st.seq_timeout = 0
      · by_cases hstep : (st.sequence_step : Int) < (st.sequence_length : Int) - 1
        · rw [seq_dosequence_normal st tbl hs' ha ht hstep]
        · rw [seq_dosequence_final_loop st tbl hs' ha ht hstep hd]
      · rw [seq_dosequence_waiting st tbl hs' ha ht]
  · intro hs ht hstep
    have h1 := seq_dosequence_final_loop st tbl hs ha ht hstep hd
    refine ⟨h1, ?_⟩
    rw [h1]
    exact hs

/-- One-frame looping table: duration 25, targets 1800, no speed override,
declared range `[1, 11]`. -/
def tblC8 : Nat → Nat → Int := fun _ col =>
  if col = 0 then 25
  else if col = SPEED_PARAM then -1
  else if col = START_SERVO_PARAM then 1
  else if col = END_SERVO_PARAM then 11
  else 1800

/-- Running state sitting on the final frame of `tblC8` with expired timer
and a registered completion callback. -/
def stC8 : SeqState :=
  { seq_current := fun _ => 1500
    seq_goal := fun _ => 1500
    servo_speed := fun _ => 0
    sequence_step := 0
    sequence_started := true
    sequence_length := 1
    seq_timeout := 0
    sequence_array := some tblC8
    servo_value := fun _ => 3000
    seq_completion_callback := true }

/-- Claim C8 witness: the loop wrap on the concrete table `tblC8` fires no
callback even though one is registered, and leaves the run flag set. -/
theorem c8_witness :
    (stC8.sequence_array = some tblC8 ∧
      toU16 (tblC8 (stC8.sequence_length - 1) 0) ≠ 0 ∧
      stC8.seq_completion_callback = true) ∧
    (seq_dosequence stC8).2 = false ∧
    (seq_dosequence stC8).1.sequence_started = true :=
  ⟨⟨rfl, by decide, rfl⟩,
    (c8_looping_never_fires stC8 tblC8 rfl (by decide)).1,
    ((c8_looping_never_fires stC8 tblC8 rfl (by decide)).2 rfl rfl (by decide)).2⟩

/-! ### RC input capture (servo.c, SERVO_RCINPUT section)

The RC globals form one record; `servo_RCread` returns the new state and the
value handed to the caller. -/

structure RCState where
  servo_rcbegin : Int
  servo_rcend : Int
  servo_gotpulse : Bool
  servo_rctimeout : Nat
  servo_rcvalid : Bool
  servo_rctemp : Int
  servo_rcpulse : Int

/-- Embedding of `servo_RCread` (servo.c lines 299-316): at or past the
timeout maximum the sentinel is returned (and latched into `servo_rcpulse`);
a fresh valid reading is halved (C `int16_t` division truncates toward zero,
hence `Int.tdiv`), stored, consumed and returned; otherwise the last known
reading is returned. -/
def servo_RCread (st : RCState) : RCState × Int :=
  if st.servo_rctimeout ≥ SERVO_RC_TIMEOUT_MAX then
    ({ st with servo_rcpulse := SERVO_NO_PULSE }, SERVO_NO_PULSE)
  else if st.servo_rctimeout = 0 ∧ st.servo_rcvalid = true then
    ({ st with servo_rcpulse := Int.tdiv st.servo_rctemp 2, servo_rcvalid := false },
      Int.tdiv st.servo_rctemp 2)
  else (st, st.servo_rcpulse)

/-- Embedding of `servo_doRCread_end` (servo.c lines 348-365): a captured
pulse resets the miss counter, stores `rcend - rcbegin` (16-bit signed
difference) and sets the validity flag; otherwise the miss counter is
incremented while it is at most `SERVO_RC_TIMEOUT_MAX`. -/
def servo_doRCread_end (st : RCState) : RCState :=
  if st.servo_gotpulse = true then
    { st with
        servo_rctimeout := 0,
        servo_rctemp := wrap16 (st.servo_rcend - st.servo_rcbegin),
        servo_rcvalid := true }
  else if st.servo_rctimeout ≤ SERVO_RC_TIMEOUT_MAX then
    { st with servo_rctimeout := st.servo_rctimeout + 1 }
  else st

/-! ### Claim C6 -/

/-- Claim C6: a fresh capture is returned exactly once (consuming the
validity flag, after which the same value is served as "last known" and the
state no longer changes); a positive miss count below the maximum returns
the last known reading unchanged; at the maximum the no-signal sentinel is
returned; a valid capture resets the miss counter and re-arms the validity
flag, and a miss increments the counter. -/
theorem c6_rc_read (st : RCState) :
    (st.servo_rctimeout = 0 → st.servo_rcvalid = true →
      (servo_RCread st).2 = Int.tdiv st.servo_rctemp 2 ∧
      (servo_RCread st).1.servo_rcvalid = false ∧
      (servo_RCread st).1.servo_rcpulse = Int.tdiv st.servo_rctemp 2 ∧
      servo_RCread (servo_RCread st).1 = ((servo_RCread st).1, Int.tdiv st.servo_rctemp 2)) ∧
    (0 < st.servo_rctimeout → st.servo_rctimeout < SERVO_RC_TIMEOUT_MAX →
      servo_RCread st = (st, st.servo_rcpulse)) ∧
    (SERVO_RC_TIMEOUT_MAX ≤ st.servo_rctimeout →
      (servo_RCread st).2 = SERVO_NO_PULSE) ∧
    (st.servo_gotpulse = true →
      (servo_doRCread_end st).servo_rctimeout = 0 ∧
      (servo_doRCread_end st).servo_rcvalid = true ∧
      (servo_doRCread_end st).servo_rctemp = wrap16 (st.servo_rcend - st.servo_rcbegin)) ∧
    (st.servo_gotpulse = false → st.servo_rctimeout ≤ SERVO_RC_TIMEOUT_MAX →
      (servo_doRCread_end st).servo_rctimeout = st.servo_rctimeout + 1) := by
  refine ⟨?_, ?_, ?_, ?_, ?_⟩
  · intro h0 hv
    have h1 : servo_RCread st =
        ({ st with servo_rcpulse := Int.tdiv st.servo_rctemp 2, servo_rcvalid := false },
          Int.tdiv st.servo_rctemp 2) := by
      unfold servo_RCread
      simp [h0, hv, SERVO_RC_TIMEOUT_MAX]
    rw [h1]
    refine ⟨rfl, rfl, rfl, ?_⟩
    unfold servo_RCread
    simp [h0, SERVO_RC_TIMEOUT_MAX]
  · intro hpos hlt
    have hn1 : ¬(st.servo_rctimeout ≥ SERVO_RC_TIMEOUT_MAX) := by omega
    have hn2 : ¬(st.servo_rctimeout = 0 ∧ st.servo_rcvalid = true) := by
      rintro ⟨h, -⟩
      omega
    unfold servo_RCread
    rw [if_neg hn1, if_neg hn2]
  · intro hmax
    unfold servo_RCread
    rw [if_pos hmax]
  · intro hg
    unfold servo_doRCread_end
    rw [if_pos hg]
    exact ⟨rfl, rfl, rfl⟩
  · intro hg hle
    have hg' : ¬(st.servo_gotpulse = true) := by simp [hg]
    unfold servo_doRCread_end
    rw [if_neg hg', if_pos hle]

/-- RC state that has timed out (miss counter at the maximum) and then sees
a capture of 3000 counter ticks. -/
def rcW : RCState :=
  { servo_rcbegin := 0
    servo_rcend := 3000
    servo_gotpulse := true
    servo_rctimeout := 10
    servo_rcvalid := false
    servo_rctemp := 0
    servo_rcpulse := -1 }

/-- Claim C6 witness: at the timeout maximum the sentinel is returned; one
valid capture resets the miss counter and the next read returns the fresh
1500 us reading exactly once (the validity flag is consumed). -/
theorem c6_witness :
    (SERVO_RC_TIMEOUT_MAX ≤ rcW.servo_rctimeout ∧ rcW.servo_gotpulse = true ∧
      (servo_doRCread_end rcW).servo_rctimeout = 0 ∧
      (servo_doRCread_end rcW).servo_rcvalid = true) ∧
    (servo_RCread rcW).2 = SERVO_NO_PULSE ∧
    (servo_RCread (servo_doRCread_end rcW)).2 =
      Int.tdiv (servo_doRCread_end rcW).servo_rctemp 2 ∧
    (servo_RCread (servo_doRCread_end rcW)).1.servo_rcvalid = false :=
  ⟨by decide,
    (c6_rc_read rcW).2.2.1 (by decide),
    ((c6_rc_read (servo_doRCread_end rcW)).1 (by decide) (by decide)).1,
    ((c6_rc_read (servo_doRCread_end rcW)).1 (by decide) (by decide)).2.1⟩

/-! ### Tick Service (realtime.c)

The timer registry `rt_timer_array` holds `RT_MAX_TIMERS` pointer slots,
modelled as a list of pointer values with 0 for `NULL`; the values behind
the pointers live in a separate store `Nat → Nat`.  The callback registry
`rt_function_array` is modelled the same way. -/

/-- Embedding of `rt_add_timer` (realtime.c lines 69-81): scan the slots in
order, install the pointer in the first `NULL` slot and return success,
else return failure with the slots untouched. -/
def rt_add_timer (slots : List Nat) (p : Nat) : List Nat × Bool :=
  match slots with
  | [] => ([], false)
  | a :: rest =>
    if a = 0 then (p :: rest, true)
    else
      let r := rt_add_timer rest p
      (a :: r.1, r.2)

/-- Embedding of `rt_add_function` (realtime.c lines 118-130): same scan
over the callback registry. -/
def rt_add_function (slots : List Nat) (p : Nat) : List Nat × Bool :=
  match slots with
  | [] => ([], false)
  | a :: rest =>
    if a = 0 then (p :: rest, true)
    else
      let r := rt_add_function rest p
      (a :: r.1, r.2)

/-- One slot of the timer-decrement loop in `ISR(TIMER0_COMPA_vect)`
(realtime.c lines 449-457): a non-`NULL` slot whose timer value is nonzero
gets that value decremented in the store. -/
def rt_tick_one (v : Nat → Nat) (p : Nat) : Nat → Nat :=
  if p ≠ 0 then
    (if v p ≠ 0 then fun x => if x = p then v p - 1 else v x else v)
  else v

/-- Timer-decrement loop of the 16 MHz tick handler `ISR(TIMER0_COMPA_vect)`
(realtime.c lines 446-457), run on the third compare interrupt of each
1/100 s tick: iterate `rt_tick_one` over the registry slots in order. -/
def rt_tick_timers (slots : List Nat) (vals : Nat → Nat) : Nat → Nat :=
  slots.foldl rt_tick_one vals

theorem rt_tick_one_other (v : Nat → Nat) (p x : Nat) (hx : x ≠ p) :
    rt_tick_one v p x = v x := by
  unfold rt_tick_one
  split_ifs <;> simp [hx]

theorem rt_tick_one_self (v : Nat → Nat) (p : Nat) (hp : p ≠ 0) :
    rt_tick_one v p p = v p - 1 := by
  unfold rt_tick_one
  rw [if_pos hp]
  split_ifs with hv
  · simp
  · omega

theorem rt_tick_timers_not_mem (slots : List Nat) (vals : Nat → Nat) (p : Nat)
    (h : p ∉ slots) : rt_tick_timers slots vals p = vals p := by
  induction slots generalizing vals with
  | nil => rfl
  | cons a rest ih =>
      have hp : p ≠ a := fun e => h (by simp [e])
      have hr : p ∉ rest := fun e => h (by simp [e])
      unfold rt_tick_timers at *
      rw [List.foldl_cons, ih (rt_tick_one vals a) hr]
      exact rt_tick_one_other vals a p hp

theorem rt_tick_timers_once (slots : List Nat) (vals : Nat → Nat) (p : Nat)
    (hp : p ≠ 0) (hcount : slots.count p = 1) :
    rt_tick_timers slots vals p = vals p - 1 := by
  induction slots generalizing vals with
  | nil => simp at hcount
  | cons a rest ih =>
      by_cases hap : a = p
      · subst hap
        have h0 : rest.count a = 0 := by
          rw [List.count_cons_self] at hcount
          omega
        have hnm : a ∉ rest := List.count_eq_zero.mp h0
        unfold rt_tick_timers
        rw [List.foldl_cons]
        have := rt_tick_timers_not_mem rest (rt_tick_one vals a) a hnm
        unfold rt_tick_timers at this
        rw [this]
        exact rt_tick_one_self vals a hp
      · have hc : rest.count p = 1 := by
          rwa [List.count_cons_of_ne (fun e => hap e.symm)] at hcount
        unfold rt_tick_timers
        rw [List.foldl_cons]
        have := ih (rt_tick_one vals a) hc
        unfold rt_tick_timers at this
        rw [this, rt_tick_one_other vals a p (fun e => hap e.symm)]

/-! ### Claim C7 -/

/-- Claim C7: on every 1/100 s tick the handler decrements each registered
nonzero timer by exactly one, and a registered zero timer stays zero — it
saturates rather than wrapping to 65535. -/
theorem c7_tick_decrements (slots : List Nat) (vals : Nat → Nat) (p : Nat)
    (_hlen : slots.length = RT_MAX_TIMERS) (hp : p ≠ 0) (hcount : slots.count p = 1) :
    (vals p ≠ 0 → rt_tick_timers slots vals p = vals p - 1) ∧
    (vals p = 0 → rt_tick_timers slots vals p = 0) := by
  have h := rt_tick_timers_once slots vals p hp hcount
  constructor
  · intro _
    exact h
  · intro h0
    rw [h, h0]

/-- Registry with timers 3 and 7 registered and eight free slots. -/
def slotsC7 : List Nat := [3, 0, 7, 0, 0, 0, 0, 0, 0, 0]

/-- Timer store: timer 3 holds 5 ticks, timer 7 holds 0. -/
def valsC7 : Nat → Nat := fun x => if x = 3 then 5 else if x = 7 then 0 else 9

/-- Claim C7 witness: the nonzero timer 3 drops from 5 to 4 and the zero
timer 7 stays zero on one tick of the registry `slotsC7`. -/
theorem c7_witness :
    (slotsC7.length = RT_MAX_TIMERS ∧ (3 : Nat) ≠ 0 ∧ slotsC7.count 3 = 1 ∧
      valsC7 3 ≠ 0 ∧ (7 : Nat) ≠ 0 ∧ slotsC7.count 7 = 1 ∧ valsC7 7 = 0) ∧
    rt_tick_timers slotsC7 valsC7 3 = valsC7 3 - 1 ∧
    rt_tick_timers slotsC7 valsC7 7 = 0 :=
  ⟨by decide,
    (c7_tick_decrements slotsC7 valsC7 3 (by decide) (by decide) (by decide)).1 (by decide),
    (c7_tick_decrements slotsC7 valsC7 7 (by decide) (by decide) (by decide)).2 (by decide)⟩

/-! ### Claim C9 -/

theorem rt_add_timer_all_full (slots : List Nat) (p : Nat) (h : ∀ a ∈ slots, a ≠ 0) :
    rt_add_timer slots p = (slots, false) := by
  induction slots with
  | nil => rfl
  | cons a rest ih =>
      unfold rt_add_timer
      rw [if_neg (h a (by simp))]
      simp [ih (fun b hb => h b (by simp [hb]))]

theorem rt_add_timer_has_free (slots : List Nat) (p : Nat) (h : ∃ a ∈ slots, a = 0) :
    (rt_add_timer slots p).2 = true := by
  induction slots with
  | nil => simp at h
  | cons a rest ih =>
      unfold rt_add_timer
      by_cases ha : a = 0
      · rw [if_pos ha]
      · rw [if_neg ha]
        rcases h with ⟨b, hb, hb0⟩
        rcases List.mem_cons.mp hb with rfl | hbr
        · exact absurd hb0 ha
        · exact ih ⟨b, hbr, hb0⟩

theorem rt_add_function_all_full (slots : List Nat) (p : Nat) (h : ∀ a ∈ slots, a ≠ 0) :
    rt_add_function slots p = (slots, false) := by
  induction slots with
  | nil => rfl
  | cons a rest ih =>
      unfold rt_add_function
      rw [if_neg (h a (by simp))]
      simp [ih (fun b hb => h b (by simp [hb]))]

theorem rt_add_function_has_free (slots : List Nat) (p : Nat) (h : ∃ a ∈ slots, a = 0) :
    (rt_add_function slots p).2 = true := by
  induction slots with
  | nil => simp at h
  | cons a rest ih =>
      unfold rt_add_function
      by_cases ha : a = 0
      · rw [if_pos ha]
      · rw [if_neg ha]
        rcases h with ⟨b, hb, hb0⟩
        rcases List.mem_cons.mp hb with rfl | hbr
        · exact absurd hb0 ha
        · exact ih ⟨b, hbr, hb0⟩

/-- Claim C9: with the timer registry (capacity 10) or the callback registry
(capacity 3) full, the next registration returns failure with every slot
unchanged, and registration fails only on capacity exhaustion: any free
slot makes it succeed. -/
theorem c9_registration_capacity (timers funcs : List Nat) (p q : Nat)
    (_htl : timers.length = RT_MAX_TIMERS) (_hfl : funcs.length = RT_MAX_FUNCTIONS) :
    ((∀ a ∈ timers, a ≠ 0) → rt_add_timer timers p = (timers, false)) ∧
    ((∃ a ∈ timers, a = 0) → (rt_add_timer timers p).2 = true) ∧
    ((∀ a ∈ funcs, a ≠ 0) → rt_add_function funcs q = (funcs, false)) ∧
    ((∃ a ∈ funcs, a = 0) → (rt_add_function funcs q).2 = true) :=
  ⟨rt_add_timer_all_full timers p, rt_add_timer_has_free timers p,
    rt_add_function_all_full funcs q, rt_add_function_has_free funcs q⟩

/-- Full timer registry (10 registered timers). -/
def timersFullC9 : List Nat := [1, 2, 3, 4, 5, 6, 7, 8, 9, 10]

/-- Full callback registry (3 registered functions). -/
def funcsFullC9 : List Nat := [21, 22, 23]

/-- Timer registry with one free slot. -/
def timersFreeC9 : List Nat := [1, 2, 0, 4, 5, 6, 7, 8, 9, 10]

/-- Callback registry with one free slot. -/
def funcsFreeC9 : List Nat := [21, 0, 23]

/-- Claim C9 witness: the 11th timer and 4th callback registrations fail and
leave the registries unchanged; with a free slot both registrations succeed. -/
theorem c9_witness :
    (timersFullC9.length = RT_MAX_TIMERS ∧ funcsFullC9.length = RT_MAX_FUNCTIONS ∧
      timersFreeC9.length = RT_MAX_TIMERS ∧ funcsFreeC9.length = RT_MAX_FUNCTIONS) ∧
    rt_add_timer timersFullC9 99 = (timersFullC9, false) ∧
    rt_add_function funcsFullC9 77 = (funcsFullC9, false) ∧
    (rt_add_timer timersFreeC9 99).2 = true ∧
    (rt_add_function funcsFreeC9 77).2 = true :=
  ⟨by decide,
    (c9_registration_capacity timersFullC9 funcsFullC9 99 77 (by decide) (by decide)).1
      (by decide),
    (c9_registration_capacity timersFullC9 funcsFullC9 99 77 (by decide) (by decide)).2.2.1
      (by decide),
    (c9_registration_capacity timersFreeC9 funcsFreeC9 99 77 (by decide) (by decide)).2.1
      (by decide),
    (c9_registration_capacity timersFreeC9 funcsFreeC9 99 77 (by decide) (by decide)).2.2.2
      (by decide)⟩

end MarcDuino
